import Mathlib

/-!
Verification of the token-lifecycle and authenticated-request core of the
google-search-console-analytics connector.

The development shallowly embeds:
* `src/server/lib/auth.ts` (JWT sign/verify wrappers, `requireAuth`),
* the route handlers of `src/server/routes.ts` that the claims reference
  (`/auth/start`, `/auth/callback`, the search-console property setter and
  the search-console summary computation),
* the external `jsonwebtoken` library, modelled as an executable token codec
  whose signature stand-in depends on both the secret and the signed body,
* the parts of `src/server/lib/google.ts` and `src/server/storage.ts` that
  are absent from the snapshot (`retryWithBackoff`, `ensureFreshAccessToken`,
  the record-store operations), modelled from the specification.

Machine integers do not overflow in any embedded routine, so numbers are
`Nat`/`ℚ`.  JavaScript truthiness (`x || d`) is made explicit wherever the
source relies on it.
-/

namespace GSC

/-! ### Decimal digit codec (used by the token model) -/

/-- One decimal digit as a character. -/
def digitChar : Nat → Char
  | 0 => '0' | 1 => '1' | 2 => '2' | 3 => '3' | 4 => '4'
  | 5 => '5' | 6 => '6' | 7 => '7' | 8 => '8' | _ => '9'

/-- Numeric value of a digit character. -/
def digVal (c : Char) : Nat := c.toNat - 48

/-- Whether a character is a decimal digit. -/
def isDigitC (c : Char) : Bool := 48 ≤ c.toNat && c.toNat ≤ 57

/-- Decimal rendering of a natural number, fuel-based so that it reduces
in the kernel. -/
def toDigitsAux : Nat → Nat → List Char
  | 0, _ => []
  | f + 1, n =>
    if n < 10 then [digitChar n]
    else toDigitsAux f (n / 10) ++ [digitChar (n % 10)]

/-- Decimal rendering of a natural number (most significant digit first). -/
def toDigits (n : Nat) : List Char := toDigitsAux (n + 1) n

/-- Parse a maximal run of decimal digits, returning the value and the rest. -/
def parseNatAux : List Char → Nat → Nat × List Char
  | [], acc => (acc, [])
  | c :: cs, acc =>
    if isDigitC c then parseNatAux cs (acc * 10 + digVal c) else (acc, c :: cs)

theorem toDigitsAux_irrel (f1 : Nat) : ∀ f2 n, n < f1 → n < f2 →
    toDigitsAux f1 n = toDigitsAux f2 n := by
  induction f1 with
  | zero => intro f2 n h; omega
  | succ f ih =>
    intro f2 n h1 h2
    cases f2 with
    | zero => omega
    | succ g =>
      simp only [toDigitsAux]
      split
      · rfl
      · have hn : 10 ≤ n := by omega
        have h10 : n / 10 < n := Nat.div_lt_self (by omega) (by omega)
        rw [ih g (n / 10) (by omega) (by omega)]

theorem toDigits_step (n : Nat) :
    toDigits n = if n < 10 then [digitChar n]
      else toDigits (n / 10) ++ [digitChar (n % 10)] := by
  show toDigitsAux (n + 1) n = _
  simp only [toDigitsAux]
  split
  · rfl
  · have hn : 10 ≤ n := by omega
    have h10 : n / 10 < n := Nat.div_lt_self (by omega) (by omega)
    rw [toDigitsAux_irrel n (n / 10 + 1) (n / 10) (by omega) (by omega)]
    rfl

theorem digVal_digitChar {d : Nat} (h : d < 10) : digVal (digitChar d) = d := by
  interval_cases d <;> rfl

theorem isDigitC_digitChar {d : Nat} (h : d < 10) : isDigitC (digitChar d) = true := by
  interval_cases d <;> rfl

theorem toDigits_digits (n : Nat) : ∀ c ∈ toDigits n, isDigitC c = true := by
  induction n using Nat.strong_induction_on with
  | _ n ih =>
    rw [toDigits_step]
    split
    · intro c hc
      simp only [List.mem_singleton] at hc
      subst hc
      exact isDigitC_digitChar (by omega)
    · intro c hc
      rcases List.mem_append.mp hc with h | h
      · exact ih (n / 10) (by omega) c h
      · simp only [List.mem_singleton] at h
        subst h
        exact isDigitC_digitChar (Nat.mod_lt _ (by omega))

theorem parseNatAux_digits (ds : List Char) (hd : ∀ c ∈ ds, isDigitC c = true) :
    ∀ rest acc, parseNatAux (ds ++ rest) acc =
      parseNatAux rest (ds.foldl (fun a c => a * 10 + digVal c) acc) := by
  induction ds with
  | nil => intro rest acc; rfl
  | cons c cs ih =>
    intro rest acc
    have hc : isDigitC c = true := hd c (List.mem_cons_self c cs)
    simp only [List.cons_append, parseNatAux, hc, if_pos, List.foldl_cons]
    exact ih (fun x hx => hd x (List.mem_cons_of_mem c hx)) rest _

theorem foldl_toDigits (n : Nat) : ∀ acc,
    (toDigits n).foldl (fun a c => a * 10 + digVal c) acc =
      acc * 10 ^ (toDigits n).length + n := by
  induction n using Nat.strong_induction_on with
  | _ n ih =>
    intro acc
    rw [toDigits_step]
    split
    · simp [List.foldl_cons, digVal_digitChar (by omega : n < 10)]
    · rw [List.foldl_append, ih (n / 10) (by omega), List.length_append]
      simp only [List.foldl_cons, List.foldl_nil, List.length_singleton]
      rw [digVal_digitChar (Nat.mod_lt _ (by omega))]
      rw [pow_succ]
      ring_nf
      omega

theorem parseNat_toDigits (n : Nat) (rest : List Char)
    (h : rest = [] ∨ ∃ c cs, rest = c :: cs ∧ isDigitC c = false) :
    parseNatAux (toDigits n ++ rest) 0 = (n, rest) := by
  rw [parseNatAux_digits (toDigits n) (toDigits_digits n) rest 0, foldl_toDigits]
  rcases h with h | ⟨c, cs, hrest, hc⟩
  · subst h; simp [parseNatAux]
  · subst hrest; simp [parseNatAux, hc]

theorem take_len_append (s : List Char) : ∀ rest : List Char,
    (s ++ rest).take s.length = s := by
  induction s with
  | nil => intro rest; rfl
  | cons c cs ih => intro rest; simp [List.take, ih rest]

theorem drop_len_append (s : List Char) : ∀ rest : List Char,
    (s ++ rest).drop s.length = rest := by
  induction s with
  | nil => intro rest; rfl
  | cons c cs ih => intro rest; simp [List.drop, ih rest]

/-! ### Model of the external `jsonwebtoken` library

The repository signs and verifies tokens with `jsonwebtoken` (HS256).  The
library is external code, so it is modelled here as an executable codec: a
token is a character list `JWT.<claims>.<iat>.<exp>.<signature>` in which
the claim strings are length-prefixed (so arbitrary payload content round
trips) and the signature stand-in is a total function of the secret and of
the signed body, mirroring the HMAC contract that a token verifies exactly
when it was produced under the same secret and its body is untampered. -/

/-- Length-prefixed encoding of one string. -/
def encStr (s : List Char) : List Char := toDigits s.length ++ ':' :: s

/-- Parse one length-prefixed string. -/
def parseStr (cs : List Char) : Option (List Char × List Char) :=
  match parseNatAux cs 0 with
  | (n, ':' :: r2) => if n ≤ r2.length then some (r2.take n, r2.drop n) else none
  | _ => none

theorem parseStr_encStr (s rest : List Char) :
    parseStr (encStr s ++ rest) = some (s, rest) := by
  have hcolon : isDigitC ':' = false := by decide
  have h1 : parseNatAux (toDigits s.length ++ ':' :: (s ++ rest)) 0 =
      (s.length, ':' :: (s ++ rest)) :=
    parseNat_toDigits s.length (':' :: (s ++ rest)) (Or.inr ⟨':', s ++ rest, rfl, hcolon⟩)
  simp only [encStr, List.append_assoc, List.cons_append, parseStr, h1]
  rw [if_pos (by simp)]
  rw [take_len_append, drop_len_append]

/-- Concatenated encoding of a claim list's key/value strings. -/
def encPairsBody : List (List Char × List Char) → List Char
  | [] => []
  | (k, v) :: rest => encStr k ++ encStr v ++ encPairsBody rest

/-- Count-prefixed encoding of a claim list. -/
def encPairs (fs : List (List Char × List Char)) : List Char :=
  toDigits fs.length ++ ';' :: encPairsBody fs

/-- Parse exactly `n` key/value pairs. -/
def parsePairs : Nat → List Char → Option (List (List Char × List Char) × List Char)
  | 0, cs => some ([], cs)
  | n + 1, cs =>
    match parseStr cs with
    | none => none
    | some (k, r1) =>
      match parseStr r1 with
      | none => none
      | some (v, r2) =>
        match parsePairs n r2 with
        | none => none
        | some (fs, r3) => some ((k, v) :: fs, r3)

/-- Parse a count-prefixed claim list. -/
def parseFields (cs : List Char) : Option (List (List Char × List Char) × List Char) :=
  match parseNatAux cs 0 with
  | (n, ';' :: r2) => parsePairs n r2
  | _ => none

theorem parsePairs_encPairsBody (fs : List (List Char × List Char)) :
    ∀ rest, parsePairs fs.length (encPairsBody fs ++ rest) = some (fs, rest) := by
  induction fs with
  | nil => intro rest; rfl
  | cons kv fs ih =>
    intro rest
    obtain ⟨k, v⟩ := kv
    simp only [List.length_cons, encPairsBody, parsePairs, List.append_assoc]
    rw [parseStr_encStr]
    dsimp only
    rw [parseStr_encStr]
    dsimp only
    rw [ih rest]

theorem parseFields_encPairs (fs : List (List Char × List Char)) (rest : List Char) :
    parseFields (encPairs fs ++ rest) = some (fs, rest) := by
  have hsemi : isDigitC ';' = false := by decide
  have h1 : parseNatAux (toDigits fs.length ++ ';' :: (encPairsBody fs ++ rest)) 0 =
      (fs.length, ';' :: (encPairsBody fs ++ rest)) :=
    parseNat_toDigits fs.length _ (Or.inr ⟨';', encPairsBody fs ++ rest, rfl, hsemi⟩)
  simp only [encPairs, List.append_assoc, List.cons_append, parseFields, h1]
  exact parsePairs_encPairsBody fs rest

/-- The signed portion of a token: claims, issued-at and expiry. -/
def signingInput (fs : List (List Char × List Char)) (iat expSec : Nat) : List Char :=
  encPairs fs ++ '.' :: (toDigits iat ++ '.' :: toDigits expSec)

/-- Stand-in for HMAC-SHA256: a total function of the secret and of the
signed body, so any change to either changes the expected signature. -/
def sigModel (secret body : List Char) : List Char := encStr secret ++ body

/-- Model of `jwt.sign(payload, secret, expiresIn: "5m")`: issues a token
whose expiry is 300 seconds after issuance. -/
def jwtSignRaw (secret : List Char) (fs : List (List Char × List Char))
    (nowSec : Nat) : List Char :=
  'J' :: 'W' :: 'T' :: '.' :: signingInput fs nowSec (nowSec + 300) ++
    '.' :: sigModel secret (signingInput fs nowSec (nowSec + 300))

/-- Model of `jwt.verify(token, secret, algorithms: HS256)`: parses the
token, recomputes the expected signature under `secret`, and accepts only
an untampered, unexpired token, returning claims, issued-at and expiry. -/
def jwtVerifyRaw (secret tok : List Char) (nowSec : Nat) :
    Option (List (List Char × List Char) × Nat × Nat) :=
  match tok with
  | 'J' :: 'W' :: 'T' :: '.' :: rest =>
    match parseFields rest with
    | some (fs, '.' :: r2) =>
      match parseNatAux r2 0 with
      | (iat, '.' :: r4) =>
        match parseNatAux r4 0 with
        | (expSec, '.' :: sig) =>
          if sig = sigModel secret (signingInput fs iat expSec) ∧ nowSec < expSec
          then some (fs, iat, expSec) else none
        | _ => none
      | _ => none
    | _ => none
  | _ => none

theorem jwtVerifyRaw_signRaw (secret : List Char) (fs : List (List Char × List Char))
    (nowSec checkSec : Nat) (h : checkSec < nowSec + 300) :
    jwtVerifyRaw secret (jwtSignRaw secret fs nowSec) checkSec =
      some (fs, nowSec, nowSec + 300) := by
  have hdot : isDigitC '.' = false := by decide
  simp only [jwtSignRaw, jwtVerifyRaw, signingInput, List.append_assoc, List.cons_append]
  rw [parseFields_encPairs]
  simp only
  rw [parseNat_toDigits nowSec _ (Or.inr ⟨'.', _, rfl, hdot⟩)]
  simp only
  rw [parseNat_toDigits (nowSec + 300) _ (Or.inr ⟨'.', _, rfl, hdot⟩)]
  simp only [signingInput, List.append_assoc, List.cons_append]
  simp [h]

/-! ### Embedding of `src/server/lib/auth.ts`

Environment variables are passed explicitly; an unset variable is the empty
string, matching the `|| ""` fallbacks in the source.  JavaScript truthiness
of strings (empty = falsy) is written out. -/

/-- JavaScript `a || b` on strings: empty string is falsy. -/
def jsOrStr (a b : String) : String := if a = "" then b else a

/-- `JWT_SECRET = process.env.TRAFFIC_DOCTOR_API_KEY || process.env.JWT_SHARED_SECRET || ""`. -/
def jwtSecretOf (trafficDoctorApiKey jwtSharedSecret : String) : String :=
  jsOrStr trafficDoctorApiKey jwtSharedSecret

/-- Failure modes of the JWT wrapper functions in `auth.ts`. -/
inductive JwtFail
  | notConfigured
  | invalidToken
deriving DecidableEq

/-- `verifyJWT` from `auth.ts`: throws when no secret is configured, else
delegates to `jwt.verify` (HS256) and returns the decoded claims (payload
fields plus the library's `iat`/`exp` claims). -/
def verifyJWT (secret : String) (token : String) (nowSec : Nat) :
    Except JwtFail (List (String × String)) :=
  if secret = "" then .error .notConfigured
  else
    match jwtVerifyRaw secret.data token.data nowSec with
    | some (fs, iat, expSec) =>
      .ok (fs.map (fun kv => (String.mk kv.1, String.mk kv.2)) ++
        [("iat", String.mk (toDigits iat)), ("exp", String.mk (toDigits expSec))])
    | none => .error .invalidToken

/-- `signJWT` from `auth.ts`: throws when no secret is configured, else
delegates to `jwt.sign` with HS256 and `expiresIn: "5m"`. -/
def signJWT (secret : String) (payload : List (String × String)) (nowSec : Nat) :
    Except JwtFail String :=
  if secret = "" then .error .notConfigured
  else .ok (String.mk (jwtSignRaw secret.data
    (payload.map (fun kv => (kv.1.data, kv.2.data))) nowSec))

/-- JavaScript `String.prototype.replace` with a string pattern: replaces
only the first occurrence. -/
def replaceFirstAux (pat rep : List Char) : List Char → List Char
  | [] => []
  | c :: cs =>
    if pat.isPrefixOf (c :: cs) then rep ++ (c :: cs).drop pat.length
    else c :: replaceFirstAux pat rep cs

/-- JS `s.replace(pat, rep)` (first occurrence only). -/
def jsReplaceFirst (s pat rep : String) : String :=
  String.mk (replaceFirstAux pat.data rep.data s.data)

/-- Outcome of the `requireAuth` middleware in `auth.ts`. -/
inductive AuthOutcome
  | serverError   -- 500, "API key not configured on worker"
  | keyRequired   -- 401, "API key required"
  | invalidKey    -- 401, "Invalid API key"
  | authorized    -- next() with req.user set
deriving DecidableEq

/-- `requireAuth` from `auth.ts`: the expected key is
`TRAFFIC_DOCTOR_API_KEY || WORKER_API_KEY`; with no key configured every
request gets a 500 server-configuration error; otherwise the credential is
taken from `x-api-key` or from the `Authorization` header with the first
`"Bearer "` occurrence removed, and compared to the expected key as a plain
string. -/
def requireAuth (trafficDoctorApiKey workerApiKey : String)
    (xApiKeyHeader authorizationHeader : Option String) : AuthOutcome :=
  let expectedKey := jsOrStr trafficDoctorApiKey workerApiKey
  if expectedKey = "" then .serverError
  else
    let fromX : Option String :=
      match xApiKeyHeader with
      | some s => if s = "" then none else some s
      | none => none
    let apiKey : Option String :=
      match fromX with
      | some s => some s
      | none =>
        match authorizationHeader with
        | some s =>
          let r := jsReplaceFirst s "Bearer " ""
          if r = "" then none else some r
        | none => none
    match apiKey with
    | none => .keyRequired
    | some k => if k = expectedKey then .authorized else .invalidKey

example : requireAuth "k" "" none (some "Bearer k") = .authorized := by decide
example : requireAuth "k" "" (some "k") none = .authorized := by decide
example : requireAuth "k" "" (some "bad") (some "Bearer k") = .invalidKey := by decide
example : requireAuth "" "" (some "k") (some "Bearer k") = .serverError := by decide
example : requireAuth "k" "" none none = .keyRequired := by decide

/-! ### Data model and record store (§3/§6; `src/server/storage.ts` contract) -/

/-- One per-tenant Connection row of the `google_connections` table. -/
structure Connection where
  websiteId : String
  accessToken : String
  refreshToken : String
  expiryDate : Nat                -- ms since epoch
  scopes : List String
  googleUserEmail : String
  scProperty : Option String
  ga4PropertyId : Option String
deriving DecidableEq

/-- The credential record store, keyed by `websiteId`. -/
def Store : Type := String → Option Connection

/-- Modelled from the spec: `storage.upsertConnection` (src/server/storage.ts
is not in the snapshot) — upsert by primary key `websiteId`. -/
def upsertConnection (store : Store) (c : Connection) : Store :=
  fun w => if w = c.websiteId then some c else store w

/-- Modelled from the spec: `storage.updateScProperty` (src/server/storage.ts
is not in the snapshot) — sets the tenant's Connection `scProperty`. -/
def updateScProperty (store : Store) (websiteId property : String) : Store :=
  fun w =>
    if w = websiteId then (store w).map (fun c => { c with scProperty := some property })
    else store w

/-- Modelled from the spec: `REQUIRED_SCOPES` from src/server/lib/google.ts
(absent from the snapshot) — the fixed minimal scope set. -/
def REQUIRED_SCOPES : List String :=
  ["webmasters.readonly", "analytics.readonly", "openid", "email"]

/-! ### Embedding of the OAuth route handlers in `src/server/routes.ts` -/

/-- Response of `GET /auth/start`. -/
inductive StartResponse
  | badRequest                      -- 400, website_id missing
  | redirectToConsent (state : String)
  | oauthError                      -- 500 OAUTH_ERROR (signJWT threw)
deriving DecidableEq

/-- `GET /auth/start` (routes.ts:26-50): requires a truthy `website_id`
query parameter, signs the correlation state `[website_id]` and redirects
to the provider consent URL carrying that state. -/
def authStartHandler (jwtSecret : String) (websiteIdParam : Option String)
    (nowSec : Nat) : StartResponse :=
  match websiteIdParam with
  | none => .badRequest
  | some wid =>
    if wid = "" then .badRequest
    else
      match signJWT jwtSecret [("website_id", wid)] nowSec with
      | .error _ => .oauthError
      | .ok state => .redirectToConsent state

/-- The provider's token-exchange response (`oauth2Client.getToken`). -/
structure TokenResponse where
  access_token : Option String
  refresh_token : Option String
  expiry_date : Option Nat
  scope : Option String
deriving DecidableEq

/-- JS truthiness of an optional string (absent or empty is falsy). -/
def jsTruthyStr (o : Option String) : Bool :=
  match o with
  | some s => decide (s ≠ "")
  | none => false

/-- JS truthiness of an optional number (absent or zero is falsy). -/
def jsTruthyNum (o : Option Nat) : Bool :=
  match o with
  | some n => decide (n ≠ 0)
  | none => false

/-- Inputs of one `GET /auth/callback` request: the query parameters and
the outcomes of the two outbound calls the handler awaits. -/
structure CallbackInput where
  errorParam : Option String
  code : Option String
  state : Option String
  tokenExchange : Except Unit TokenResponse      -- getToken: error = throw
  userinfo : Except Unit (Option String)          -- userinfo.get: ok carries data.email
  nowSec : Nat

/-- Response of `GET /auth/callback` (status redirects collapse onto the
same outcomes as the JSON responses). -/
inductive CbResponse
  | oauthError (message : String)   -- 400 OAUTH_ERROR
  | badRequest                      -- 400 BAD_REQUEST, missing code/state
  | invalidState                    -- 400 INVALID_STATE
  | tokenError                      -- 500 TOKEN_ERROR, missing token fields
  | callbackError                   -- 500 CALLBACK_ERROR (outer catch)
  | success (websiteId email : String)
deriving DecidableEq

/-- `GET /auth/callback` (routes.ts:53-118).  The `!code || !state` guard
treats absent and empty-string parameters alike (JS falsiness) and
returns 400 BAD_REQUEST; any exception inside the `try` block (state
verification failure, token-exchange failure, userinfo failure) lands in
the outer `catch` and yields `callbackError` with nothing persisted. -/
def authCallbackHandler (jwtSecret : String) (inp : CallbackInput)
    (store : Store) : CbResponse × Store :=
  match inp.errorParam with
  | some msg => (.oauthError msg, store)
  | none =>
    if !(jsTruthyStr inp.code && jsTruthyStr inp.state) then (.badRequest, store)
    else
      match verifyJWT jwtSecret (inp.state.getD "") inp.nowSec with
      | .error _ => (.callbackError, store)
      | .ok decoded =>
        if jsTruthyStr (decoded.lookup "website_id") = false then (.invalidState, store)
        else
          let websiteId := (decoded.lookup "website_id").getD ""
          match inp.tokenExchange with
          | .error _ => (.callbackError, store)
          | .ok tokens =>
            if !(jsTruthyStr tokens.access_token && jsTruthyStr tokens.refresh_token &&
                 jsTruthyNum tokens.expiry_date) then (.tokenError, store)
            else
              match inp.userinfo with
              | .error _ => (.callbackError, store)
              | .ok emailOpt =>
                let email := emailOpt.getD ""
                let conn : Connection :=
                  { websiteId := websiteId
                    accessToken := tokens.access_token.getD ""
                    refreshToken := tokens.refresh_token.getD ""
                    expiryDate := tokens.expiry_date.getD 0
                    scopes :=
                      match tokens.scope with
                      | some s => s.splitOn " "
                      | none => REQUIRED_SCOPES
                    googleUserEmail := email
                    scProperty := none
                    ga4PropertyId := none }
                (.success websiteId email, upsertConnection store conn)

/-! ### Embedding of the search-console property setter (routes.ts:150-179) -/

/-- Response of `POST /api/websites/:websiteId/search-console/property`. -/
inductive SetPropResponse
  | ok (property : String)
  | invalidProperty (availableProperties : List (Option String))  -- 400
  | handlerError                                                  -- 500 catch
deriving DecidableEq

/-- The property-setter handler: validates the request body, obtains an
authenticated client, fetches the live site list (`siteEntry || []`), and
persists the property only on an exact `siteUrl === property` match; any
thrown error reaches the catch block and nothing is persisted. -/
def setScPropertyHandler (store : Store) (websiteId : String)
    (bodyProperty : Option String)
    (clientResult : Except Unit Unit)
    (sitesList : Except Unit (Option (List (Option String)))) :
    SetPropResponse × Store :=
  match bodyProperty with
  | none => (.handlerError, store)
  | some property =>
    match clientResult with
    | .error _ => (.handlerError, store)
    | .ok _ =>
      match sitesList with
      | .error _ => (.handlerError, store)
      | .ok entry =>
        let sites := entry.getD []
        if sites.any (fun su => su == some property) then
          (.ok property, updateScProperty store websiteId property)
        else (.invalidProperty sites, store)

/-! ### Embedding of the search-console summary computation (routes.ts:236-261) -/

/-- One row of the provider's search-analytics response; numeric values
are modelled as exact rationals. -/
structure SCRow where
  keys : List String
  clicks : Option ℚ
  impressions : Option ℚ
  ctr : Option ℚ
  position : Option ℚ

/-- The `totals` object of the summary response. -/
structure SCTotals where
  clicks : ℚ
  impressions : ℚ
  ctr : ℚ
  position : ℚ
deriving DecidableEq

/-- One `byDay` entry of the summary response. -/
structure SCDayRow where
  date : String
  clicks : ℚ
  impressions : ℚ
  ctr : ℚ
  position : ℚ
deriving DecidableEq

/-- JS `x || 0` on an optional number. -/
def jsNum (o : Option ℚ) : ℚ := o.getD 0

/-- JS `x || 1` on a number (zero is falsy). -/
def jsOrOne (x : ℚ) : ℚ := if x = 0 then 1 else x

/-- The summary computation: `byDay` maps rows, and the totals are left at
zero unless `rows.length > 0`, in which case clicks/impressions are summed
by `reduce`, `ctr = clicks / (impressions || 1)` and `position` is the mean
of row positions. -/
def scSummaryCompute (rows : List SCRow) : SCTotals × List SCDayRow :=
  let byDay := rows.map (fun row =>
    { date := row.keys.headD ""
      clicks := jsNum row.clicks
      impressions := jsNum row.impressions
      ctr := jsNum row.ctr
      position := jsNum row.position : SCDayRow })
  if rows.length > 0 then
    let clicks := rows.foldl (fun s row => s + jsNum row.clicks) 0
    let impressions := rows.foldl (fun s row => s + jsNum row.impressions) 0
    ({ clicks := clicks
       impressions := impressions
       ctr := clicks / jsOrOne impressions
       position := (rows.foldl (fun s row => s + jsNum row.position) 0) / rows.length },
     byDay)
  else ({ clicks := 0, impressions := 0, ctr := 0, position := 0 }, byDay)

/-! ### Spec-modelled components of `src/server/lib/google.ts`

`src/server/lib/google.ts` is imported by `routes.ts` but absent from the
snapshot; its retry executor and token-refresh routine are modelled from
spec §4.2/§4.3. -/

/-- The internal error taxonomy (spec §7). -/
inductive ErrCode
  | notConnected | reauthorizationRequired | insufficientScope | rateLimited
  | invalidProperty | noProperty | unauthorized | invalidState
  | tokenExchangeFailed | incompleteGrant | providerError
deriving DecidableEq

/-- Outcome of one provider-call attempt. -/
inductive CallOutcome (α : Type)
  | ok (a : α)
  | httpError (status : Nat)

/-- Result of the retry executor, carrying the number of attempts made. -/
inductive RetryResult (α : Type)
  | success (a : α) (attempts : Nat)
  | failure (code : ErrCode) (attempts : Nat)
deriving DecidableEq

/-- Modelled from the spec: the retry classifier of `retryWithBackoff`
(src/server/lib/google.ts, absent) — retryable statuses are HTTP 429 and
any 5xx (§4.3). -/
def isRetryableStatus (status : Nat) : Bool :=
  status == 429 || (500 ≤ status && status ≤ 599)

/-- Modelled from the spec: error normalization (`handleGoogleAPIError`,
src/server/lib/google.ts, absent) — 429 surfaces `RateLimited`, 5xx
surfaces `ProviderError`, 401/403 a scope code, the rest the catch-all
provider-error code (§4.3, §7). -/
def normalizeStatus (status : Nat) : ErrCode :=
  if status == 429 then .rateLimited
  else if 500 ≤ status then .providerError
  else if status == 401 || status == 403 then .insufficientScope
  else .providerError

/-- Retry loop: `attempt` is the 1-based attempt index, the first argument
the number of retries still allowed. -/
def retryGo (call : Nat → CallOutcome α) (attempt : Nat) :
    Nat → RetryResult α
  | 0 =>
    match call attempt with
    | .ok a => .success a attempt
    | .httpError s => .failure (normalizeStatus s) attempt
  | rem + 1 =>
    match call attempt with
    | .ok a => .success a attempt
    | .httpError s =>
      if isRetryableStatus s then retryGo call (attempt + 1) rem
      else .failure (normalizeStatus s) attempt

/-- Modelled from the spec: `retryWithBackoff` (src/server/lib/google.ts,
absent) — executes the provider call up to `maxAttempts` times, retrying
only retryable statuses; backoff delays do not affect the returned value
and are omitted (§4.3). -/
def retryWithBackoff (maxAttempts : Nat) (call : Nat → CallOutcome α) :
    RetryResult α :=
  retryGo call 1 (maxAttempts - 1)

/-- The provider's refresh-exchange response. -/
structure RefreshResponse where
  accessToken : String
  expiryDate : Nat
  refreshToken : Option String
deriving DecidableEq

/-- Modelled from the spec: `ensureFreshAccessToken` as used by
`getAuthenticatedClient` (src/server/lib/google.ts, absent) — loads the
Connection (`NotConnected` if absent); if `expiryDate` is more than five
minutes in the future returns the stored token with no refresh call,
otherwise performs exactly one refresh exchange, persisting the new token
material (rotating the refresh token only if the provider returned one);
a refresh failure surfaces `ReauthorizationRequired` (§4.2).  The third
component counts refresh-exchange network calls. -/
def ensureFreshAccessToken (nowMs : Nat) (store : Store) (websiteId : String)
    (refreshExchange : String → Except Unit RefreshResponse) :
    Except ErrCode String × Store × Nat :=
  match store websiteId with
  | none => (.error .notConnected, store, 0)
  | some conn =>
    if nowMs + 5 * 60 * 1000 < conn.expiryDate then (.ok conn.accessToken, store, 0)
    else
      match refreshExchange conn.refreshToken with
      | .error _ => (.error .reauthorizationRequired, store, 1)
      | .ok r =>
        let conn2 :=
          { conn with
            accessToken := r.accessToken
            expiryDate := r.expiryDate
            refreshToken := r.refreshToken.getD conn.refreshToken }
        (.ok r.accessToken, upsertConnection store conn2, 1)

/-! ### Helper lemmas about the retry loop -/

theorem retryGo_ok {α : Type} (call : Nat → CallOutcome α) (attempt : Nat) (a : α)
    (h : call attempt = .ok a) :
    ∀ rem, retryGo call attempt rem = .success a attempt := by
  intro rem; cases rem <;> simp [retryGo, h]

theorem retryGo_stop {α : Type} (call : Nat → CallOutcome α) (attempt s : Nat)
    (h : call attempt = .httpError s) (hr : isRetryableStatus s = false) :
    ∀ rem, retryGo call attempt rem = .failure (normalizeStatus s) attempt := by
  intro rem; cases rem <;> simp [retryGo, h, hr]

theorem retryGo_retry {α : Type} (call : Nat → CallOutcome α) (attempt s rem : Nat)
    (h : call attempt = .httpError s) (hr : isRetryableStatus s = true) :
    retryGo call attempt (rem + 1) = retryGo call (attempt + 1) rem := by
  simp [retryGo, h, hr]

theorem retryGo_const500 {α : Type} :
    ∀ rem attempt, retryGo (fun _ => (CallOutcome.httpError 500 : CallOutcome α)) attempt rem =
      .failure .providerError (attempt + rem) := by
  intro rem
  induction rem with
  | zero =>
    intro attempt
    have hn : normalizeStatus 500 = ErrCode.providerError := rfl
    simp [retryGo, hn]
  | succ r ih =>
    intro attempt
    rw [retryGo_retry _ attempt 500 r rfl rfl, ih]
    congr 1
    omega

/-- C1: wrapped provider calls — a call failing with HTTP 429 three times
and then succeeding yields the success result after exactly 4 attempts
(any attempt cap of at least 4); a call always failing with HTTP 500
exhausts the attempt cap and returns the normalized `ProviderError` code;
a 4xx status other than 429 is never retried (the call returns after one
attempt). -/
theorem retryExecutor_c1 (α : Type) (a : α) (maxAttempts status : Nat)
    (hcap : 4 ≤ maxAttempts) (h4 : 400 ≤ status) (h4' : status < 500) (hne : status ≠ 429) :
    retryWithBackoff maxAttempts
        (fun n => if n ≤ 3 then CallOutcome.httpError 429 else CallOutcome.ok a) =
      RetryResult.success a 4 ∧
    retryWithBackoff maxAttempts (fun _ => (CallOutcome.httpError 500 : CallOutcome α)) =
      RetryResult.failure ErrCode.providerError maxAttempts ∧
    retryWithBackoff maxAttempts (fun _ => (CallOutcome.httpError status : CallOutcome α)) =
      RetryResult.failure (normalizeStatus status) 1 := by
  refine ⟨?_, ?_, ?_⟩
  · obtain ⟨r, rfl⟩ : ∃ r, maxAttempts = r + 4 := ⟨maxAttempts - 4, by omega⟩
    unfold retryWithBackoff
    rw [show r + 4 - 1 = (r + 2) + 1 from by omega]
    rw [retryGo_retry _ 1 429 (r + 2) (by simp) rfl]
    rw [show (r + 2 : Nat) = (r + 1) + 1 from by omega]
    rw [retryGo_retry _ 2 429 (r + 1) (by simp) rfl]
    rw [retryGo_retry _ 3 429 r (by simp) rfl]
    exact retryGo_ok _ 4 a (by simp) r
  · unfold retryWithBackoff
    rw [retryGo_const500]
    congr 1
    omega
  · unfold retryWithBackoff
    refine retryGo_stop _ 1 status rfl ?_ (maxAttempts - 1)
    simp only [isRetryableStatus, Bool.or_eq_false_iff, Bool.and_eq_false_iff]
    constructor
    · simp only [beq_eq_false_iff_ne, ne_eq]
      exact hne
    · left
      simp only [decide_eq_false_iff_not]
      omega

theorem retryExecutor_c1_witness :
    retryWithBackoff 4
        (fun n => if n ≤ 3 then CallOutcome.httpError 429 else CallOutcome.ok (0 : Nat)) =
      RetryResult.success 0 4 ∧
    retryWithBackoff 4 (fun _ => (CallOutcome.httpError 500 : CallOutcome Nat)) =
      RetryResult.failure ErrCode.providerError 4 ∧
    retryWithBackoff 4 (fun _ => (CallOutcome.httpError 403 : CallOutcome Nat)) =
      RetryResult.failure (normalizeStatus 403) 1 :=
  retryExecutor_c1 Nat 0 4 403 (by decide) (by decide) (by decide) (by decide)

/-- C2: `ensureFreshAccessToken` — with no Connection it fails with
`NotConnected` (and makes no refresh call); with a Connection whose expiry
is more than five minutes away it returns the stored access token
unchanged with zero refresh calls and an unchanged store; otherwise it
performs exactly one refresh exchange. -/
theorem tokenRefresh_c2 (nowMs : Nat) (store : Store) (websiteId : String)
    (refreshExchange : String → Except Unit RefreshResponse) :
    (store websiteId = none →
      ensureFreshAccessToken nowMs store websiteId refreshExchange =
        (.error .notConnected, store, 0)) ∧
    (∀ conn, store websiteId = some conn → nowMs + 5 * 60 * 1000 < conn.expiryDate →
      ensureFreshAccessToken nowMs store websiteId refreshExchange =
        (.ok conn.accessToken, store, 0)) ∧
    (∀ conn, store websiteId = some conn → conn.expiryDate ≤ nowMs + 5 * 60 * 1000 →
      (ensureFreshAccessToken nowMs store websiteId refreshExchange).2.2 = 1) := by
  refine ⟨?_, ?_, ?_⟩
  · intro h; simp [ensureFreshAccessToken, h]
  · intro conn h hfresh
    simp [ensureFreshAccessToken, h, hfresh]
  · intro conn h hstale
    simp only [ensureFreshAccessToken, h]
    rw [if_neg (by omega)]
    cases refreshExchange conn.refreshToken <;> rfl

/-- A concrete Connection used by witnesses. -/
def connA : Connection :=
  { websiteId := "w1", accessToken := "at", refreshToken := "rt",
    expiryDate := 1000000, scopes := REQUIRED_SCOPES,
    googleUserEmail := "u@example.com", scProperty := none, ga4PropertyId := none }

/-- A one-tenant store used by witnesses. -/
def storeA : Store := fun w => if w = "w1" then some connA else none

theorem tokenRefresh_c2_witness :
    ensureFreshAccessToken 0 storeA "w1" (fun _ => Except.error ()) =
      (.ok connA.accessToken, storeA, 0) ∧
    ensureFreshAccessToken 0 storeA "missing" (fun _ => Except.error ()) =
      (.error .notConnected, storeA, 0) ∧
    (ensureFreshAccessToken 999000 storeA "w1" (fun _ => Except.error ())).2.2 = 1 :=
  ⟨(tokenRefresh_c2 0 storeA "w1" _).2.1 connA (by decide) (by decide),
   (tokenRefresh_c2 0 storeA "missing" _).1 (by decide),
   (tokenRefresh_c2 999000 storeA "w1" _).2.2 connA (by decide) (by decide)⟩

/-- C6: `requireAuth` with no service secret configured (neither
`TRAFFIC_DOCTOR_API_KEY` nor `WORKER_API_KEY` set) rejects every request
with the server-configuration error; no presented credential is ever
authorized. -/
theorem failClosed_c6 : ∀ xApiKeyHeader authorizationHeader : Option String,
    requireAuth "" "" xApiKeyHeader authorizationHeader = .serverError ∧
    requireAuth "" "" xApiKeyHeader authorizationHeader ≠ .authorized := by
  intro xk ah
  constructor
  · simp [requireAuth, jsOrStr]
  · simp [requireAuth, jsOrStr]

/-- C10: the search-console summary — zero rows give all-zero totals and
empty `byDay`; with rows present, clicks/impressions are the row sums,
`ctr` divides total clicks by total impressions with a divisor of 1 when
impressions are zero, and `position` is the arithmetic mean of the row
positions. -/
theorem scSummary_c10 :
    scSummaryCompute [] = ({ clicks := 0, impressions := 0, ctr := 0, position := 0 }, []) ∧
    ∀ rows : List SCRow, rows ≠ [] →
      (scSummaryCompute rows).1.clicks = (rows.map (fun r => jsNum r.clicks)).sum ∧
      (scSummaryCompute rows).1.impressions = (rows.map (fun r => jsNum r.impressions)).sum ∧
      (scSummaryCompute rows).1.ctr = (scSummaryCompute rows).1.clicks /
        (if (scSummaryCompute rows).1.impressions = 0 then 1
         else (scSummaryCompute rows).1.impressions) ∧
      (scSummaryCompute rows).1.position =
        (rows.map (fun r => jsNum r.position)).sum / (rows.length : ℚ) := by
  constructor
  · rfl
  · intro rows hne
    have hlen : rows.length > 0 := List.length_pos.mpr hne
    have hfold : ∀ f : SCRow → ℚ,
        rows.foldl (fun s row => s + f row) 0 = (rows.map f).sum := by
      intro f
      rw [List.sum_eq_foldl, List.foldl_map]
    simp only [scSummaryCompute, if_pos hlen]
    refine ⟨hfold _, hfold _, ?_, ?_⟩
    · simp [jsOrOne]
    · rw [hfold]

/-- A concrete provider row used by the C10 witness. -/
def rowA : SCRow :=
  { keys := ["2025-01-01"], clicks := some 3, impressions := some 10,
    ctr := some (3 / 10), position := some 5 }

theorem scSummary_c10_witness :
    (scSummaryCompute [rowA]).1.clicks = ([rowA].map (fun r => jsNum r.clicks)).sum ∧
    (scSummaryCompute [rowA]).1.impressions = ([rowA].map (fun r => jsNum r.impressions)).sum ∧
    (scSummaryCompute [rowA]).1.ctr = (scSummaryCompute [rowA]).1.clicks /
      (if (scSummaryCompute [rowA]).1.impressions = 0 then 1
       else (scSummaryCompute [rowA]).1.impressions) ∧
    (scSummaryCompute [rowA]).1.position =
      ([rowA].map (fun r => jsNum r.position)).sum / (([rowA].length : Nat) : ℚ) :=
  scSummary_c10.2 [rowA] (by simp)

/-- C5: the search-console property setter — with the live site list
fetched, an exactly matching property is persisted and acknowledged; a
non-matching property yields `InvalidProperty` carrying the accessible
site list with the store untouched; and globally, the store changes only
when the request body carried a property that exactly matched the fetched
live site list. -/
theorem setScProperty_c5 (store : Store) (websiteId property : String)
    (clientResult : Except Unit Unit)
    (sitesList : Except Unit (Option (List (Option String))))
    (sites : List (Option String))
    (hsites : sitesList = .ok (some sites)) :
    ((sites.any (fun su => su == some property) = true → clientResult = .ok () →
      setScPropertyHandler store websiteId (some property) clientResult sitesList =
        (.ok property, updateScProperty store websiteId property)) ∧
     (sites.any (fun su => su == some property) = false → clientResult = .ok () →
      setScPropertyHandler store websiteId (some property) clientResult sitesList =
        (.invalidProperty sites, store))) ∧
    (∀ (bodyProperty : Option String) (cr : Except Unit Unit)
       (sl : Except Unit (Option (List (Option String)))) (w : String),
      (setScPropertyHandler store websiteId bodyProperty cr sl).2 w ≠ store w →
      ∃ p entry, bodyProperty = some p ∧ sl = .ok entry ∧
        (entry.getD []).any (fun su => su == some p) = true) := by
  subst hsites
  refine ⟨⟨?_, ?_⟩, ?_⟩
  · intro hmatch _hc
    cases clientResult with
    | error e => cases _hc
    | ok u => simp [setScPropertyHandler, hmatch]
  · intro hmatch _hc
    cases clientResult with
    | error e => cases _hc
    | ok u => simp [setScPropertyHandler, hmatch]
  · intro bp cr sl w hchanged
    cases bp with
    | none => exact absurd rfl hchanged
    | some p =>
      cases cr with
      | error e => exact absurd rfl hchanged
      | ok u =>
        cases sl with
        | error e => exact absurd rfl hchanged
        | ok entry =>
          by_cases hmatch : (entry.getD []).any (fun su => su == some p) = true
          · exact ⟨p, entry, rfl, rfl, hmatch⟩
          · exfalso
            apply hchanged
            simp [setScPropertyHandler, Bool.eq_false_iff.mpr hmatch]

theorem setScProperty_c5_witness :
    setScPropertyHandler storeA "w1" (some "https://ex.com/") (.ok ())
        (.ok (some [some "https://ex.com/"])) =
      (.ok "https://ex.com/", updateScProperty storeA "w1" "https://ex.com/") ∧
    setScPropertyHandler storeA "w1" (some "https://other.com/") (.ok ())
        (.ok (some [some "https://ex.com/"])) =
      (.invalidProperty [some "https://ex.com/"], storeA) :=
  ⟨(setScProperty_c5 storeA "w1" "https://ex.com/" (.ok ()) _ _ rfl).1.1 (by decide) rfl,
   (setScProperty_c5 storeA "w1" "https://other.com/" (.ok ()) _ _ rfl).1.2 (by decide) rfl⟩

/-- C3: the authorization-code exchange — when the callback reaches the
token exchange and the provider's response lacks any of access token,
refresh token, or expiry (JS-falsy fields), the handler terminates with
the token error and the store is untouched; and globally, any Connection
the callback creates or replaces has all three of access token, refresh
token and expiry set (never a proper subset). -/
theorem incompleteGrant_c3 (jwtSecret : String) (inp : CallbackInput) (store : Store) :
    (∀ st decoded tokens, inp.errorParam = none → inp.state = some st → st ≠ "" →
      (∃ c, inp.code = some c ∧ c ≠ "") →
      verifyJWT jwtSecret st inp.nowSec = .ok decoded →
      jsTruthyStr (decoded.lookup "website_id") = true →
      inp.tokenExchange = .ok tokens →
      (jsTruthyStr tokens.access_token && jsTruthyStr tokens.refresh_token &&
        jsTruthyNum tokens.expiry_date) = false →
      authCallbackHandler jwtSecret inp store = (.tokenError, store)) ∧
    (∀ w, (authCallbackHandler jwtSecret inp store).2 w ≠ store w →
      ∃ c, (authCallbackHandler jwtSecret inp store).2 w = some c ∧
        c.accessToken ≠ "" ∧ c.refreshToken ≠ "" ∧ c.expiryDate ≠ 0) := by
  obtain ⟨ep, code, state, tex, ui, now⟩ := inp
  constructor
  · rintro st decoded tokens herr hst hstne ⟨c, hc, hcne⟩ hver hwid htex hmiss
    simp only at herr hst hc hver htex
    subst herr hst hc htex
    have hgc : jsTruthyStr (some c) = true := by
      simp only [jsTruthyStr, decide_eq_true_eq]; exact hcne
    have hgs : jsTruthyStr (some st) = true := by
      simp only [jsTruthyStr, decide_eq_true_eq]; exact hstne
    simp [authCallbackHandler, hgc, hgs, hver, hwid, hmiss]
  · intro w
    simp only [authCallbackHandler]
    cases ep with
    | some m => intro h; exact absurd rfl h
    | none =>
      dsimp only
      cases hguard : (jsTruthyStr code && jsTruthyStr state) with
      | false =>
        rw [if_pos (show (!false) = true from rfl)]
        intro h; exact absurd rfl h
      | true =>
        rw [if_neg (show ¬((!true) = true) from by decide)]
        cases verifyJWT jwtSecret (state.getD "") now with
        | error e => intro h; exact absurd rfl h
        | ok decoded =>
          dsimp only
          by_cases hwid : jsTruthyStr (decoded.lookup "website_id") = false
          · rw [if_pos hwid]; intro h; exact absurd rfl h
          · rw [if_neg hwid]
            cases tex with
            | error e => intro h; exact absurd rfl h
            | ok tokens =>
              dsimp only
              by_cases hmiss : (jsTruthyStr tokens.access_token &&
                  jsTruthyStr tokens.refresh_token && jsTruthyNum tokens.expiry_date) = true
              · rw [if_neg (by simp [hmiss])]
                cases ui with
                | error e => intro h; exact absurd rfl h
                | ok emailOpt =>
                  simp only [Bool.and_eq_true] at hmiss
                  obtain ⟨⟨hat, hrt⟩, hed⟩ := hmiss
                  dsimp only
                  simp only [upsertConnection]
                  by_cases hw : w = ((decoded.lookup "website_id").getD "")
                  · rw [if_pos hw]
                    intro _h
                    refine ⟨_, rfl, ?_, ?_, ?_⟩
                    · cases hA : tokens.access_token with
                      | none => rw [hA] at hat; cases hat
                      | some s =>
                        rw [hA] at hat; simp only [jsTruthyStr, decide_eq_true_eq] at hat
                        simpa [hA] using hat
                    · cases hR : tokens.refresh_token with
                      | none => rw [hR] at hrt; cases hrt
                      | some s =>
                        rw [hR] at hrt; simp only [jsTruthyStr, decide_eq_true_eq] at hrt
                        simpa [hR] using hrt
                    · cases hE : tokens.expiry_date with
                      | none => rw [hE] at hed; cases hed
                      | some n =>
                        rw [hE] at hed; simp only [jsTruthyNum, decide_eq_true_eq] at hed
                        simpa [hE] using hed
                  · rw [if_neg hw]; intro h; exact absurd rfl h
              · have hb : (jsTruthyStr tokens.access_token &&
                    jsTruthyStr tokens.refresh_token && jsTruthyNum tokens.expiry_date) = false := by
                  cases hx : (jsTruthyStr tokens.access_token &&
                      jsTruthyStr tokens.refresh_token && jsTruthyNum tokens.expiry_date)
                  · rfl
                  · exact absurd hx hmiss
                rw [if_pos (by simp [hb])]
                intro h; exact absurd rfl h

/-! ### String-level helper lemmas -/

theorem stringMk_data (s : String) : String.mk s.data = s := rfl

theorem stringData_append (s t : String) : (s ++ t).data = s.data ++ t.data := rfl

/-! ### Concrete inputs used by witnesses and counterexamples -/

/-- The empty store. -/
def storeE : Store := fun _ => none

/-- A complete token-exchange response. -/
def tokensFullA : TokenResponse :=
  { access_token := some "at", refresh_token := some "rt",
    expiry_date := some 111, scope := some "a b" }

/-- A token response missing the refresh token. -/
def tokensNoRefreshA : TokenResponse :=
  { access_token := some "at", refresh_token := none,
    expiry_date := some 111, scope := none }

/-- A correlation state signed under secret "s" carrying website_id "w1",
issued at 100. -/
def stateTokA : String :=
  String.mk (jwtSignRaw "s".data [("website_id".data, "w1".data)] 100)

/-- Callback input whose token exchange returned incomplete tokens. -/
def cbInputIncomplete : CallbackInput :=
  { errorParam := none, code := some "c", state := some stateTokA,
    tokenExchange := .ok tokensNoRefreshA, userinfo := .ok (some "u@x"), nowSec := 150 }

/-- Callback input whose userinfo (email) lookup throws. -/
def cbInputEmailFail : CallbackInput :=
  { errorParam := none, code := some "c", state := some stateTokA,
    tokenExchange := .ok tokensFullA, userinfo := .error (), nowSec := 150 }

/-- Callback input whose userinfo lookup succeeds but carries no email. -/
def cbInputEmailNone : CallbackInput :=
  { errorParam := none, code := some "c", state := some stateTokA,
    tokenExchange := .ok tokensFullA, userinfo := .ok none, nowSec := 150 }

/-- A fully successful callback input. -/
def cbInputOk : CallbackInput :=
  { errorParam := none, code := some "c", state := some stateTokA,
    tokenExchange := .ok tokensFullA, userinfo := .ok (some "u@x"), nowSec := 150 }

theorem incompleteGrant_c3_witness :
    authCallbackHandler "s" cbInputIncomplete storeA = (.tokenError, storeA) ∧
    ∃ c, (authCallbackHandler "s" cbInputOk storeE).2 "w1" = some c ∧
      c.accessToken ≠ "" ∧ c.refreshToken ≠ "" ∧ c.expiryDate ≠ 0 :=
  ⟨(incompleteGrant_c3 "s" cbInputIncomplete storeA).1 stateTokA
      [("website_id", "w1"), ("iat", "100"), ("exp", "400")] tokensNoRefreshA
      rfl rfl (by decide) ⟨"c", rfl, by decide⟩ rfl (by decide) rfl (by decide),
   (incompleteGrant_c3 "s" cbInputOk storeE).2 "w1" (by decide)⟩

/-- C4 counterexample: with a valid state and a complete token exchange, a
failing email lookup makes the callback abort with `CALLBACK_ERROR` and
persist nothing — the claim instead requires the Connection to be stored
with an empty email and the grant to complete successfully. -/
theorem emailNonFatal_c4_counterexample :
    authCallbackHandler "s" cbInputEmailFail storeE = (CbResponse.callbackError, storeE) ∧
    (authCallbackHandler "s" cbInputEmailFail storeE).2 "w1" = none ∧
    CbResponse.callbackError ≠ CbResponse.success "w1" "" :=
  ⟨rfl, rfl, by decide⟩

/-- C4 amended: after a successful exchange yielding all three token
fields, an email lookup that succeeds without an email is non-fatal (the
Connection is persisted with an empty email and the grant completes), but
an email lookup that throws aborts the whole grant with `CALLBACK_ERROR`
and nothing is persisted. -/
theorem emailNonFatal_c4_amended (jwtSecret : String) (inp : CallbackInput) (store : Store)
    (st : String) (decoded : List (String × String)) (tokens : TokenResponse)
    (herr : inp.errorParam = none) (hst : inp.state = some st) (hstne : st ≠ "")
    (hcode : ∃ c, inp.code = some c ∧ c ≠ "")
    (hver : verifyJWT jwtSecret st inp.nowSec = .ok decoded)
    (hwid : jsTruthyStr (decoded.lookup "website_id") = true)
    (htex : inp.tokenExchange = .ok tokens)
    (hfull : (jsTruthyStr tokens.access_token && jsTruthyStr tokens.refresh_token &&
      jsTruthyNum tokens.expiry_date) = true) :
    (inp.userinfo = .ok none →
      (authCallbackHandler jwtSecret inp store).1 =
        .success ((decoded.lookup "website_id").getD "") "" ∧
      ((authCallbackHandler jwtSecret inp store).2
          ((decoded.lookup "website_id").getD "")).map Connection.googleUserEmail =
        some "") ∧
    (inp.userinfo = .error () →
      authCallbackHandler jwtSecret inp store = (.callbackError, store)) := by
  obtain ⟨ep, code, state, tex, ui, now⟩ := inp
  obtain ⟨c, hc, hcne⟩ := hcode
  simp only at herr hst hc hver htex hwid hfull ⊢
  subst herr hst hc htex
  have hgc : jsTruthyStr (some c) = true := by
    simp only [jsTruthyStr, decide_eq_true_eq]; exact hcne
  have hgs : jsTruthyStr (some st) = true := by
    simp only [jsTruthyStr, decide_eq_true_eq]; exact hstne
  constructor
  · intro hui
    subst hui
    simp [authCallbackHandler, hgc, hgs, hver, hwid, hfull, upsertConnection]
  · intro hui
    subst hui
    simp [authCallbackHandler, hgc, hgs, hver, hwid, hfull]

theorem emailNonFatal_c4_witness :
    ((authCallbackHandler "s" cbInputEmailNone storeE).1 = .success "w1" "" ∧
     ((authCallbackHandler "s" cbInputEmailNone storeE).2 "w1").map
        Connection.googleUserEmail = some "") ∧
    authCallbackHandler "s" cbInputEmailFail storeE = (.callbackError, storeE) :=
  ⟨(emailNonFatal_c4_amended "s" cbInputEmailNone storeE stateTokA
      [("website_id", "w1"), ("iat", "100"), ("exp", "400")] tokensFullA
      rfl rfl (by decide) ⟨"c", rfl, by decide⟩ rfl (by decide) rfl (by decide)).1 rfl,
   (emailNonFatal_c4_amended "s" cbInputEmailFail storeE stateTokA
      [("website_id", "w1"), ("iat", "100"), ("exp", "400")] tokensFullA
      rfl rfl (by decide) ⟨"c", rfl, by decide⟩ rfl (by decide) rfl (by decide)).2 rfl⟩

/-! ### Lemmas about the Bearer-prefix strip in `requireAuth` -/

theorem isPrefixOf_append_self (s rest : List Char) : s.isPrefixOf (s ++ rest) = true := by
  induction s with
  | nil => cases rest <;> rfl
  | cons c cs ih =>
    have e : (c :: cs).isPrefixOf ((c :: cs) ++ rest) =
        ((c == c) && cs.isPrefixOf (cs ++ rest)) := rfl
    rw [e, ih]
    simp

theorem replaceFirstAux_head_match (pat rep rest : List Char) (hp : pat ≠ []) :
    replaceFirstAux pat rep (pat ++ rest) = rep ++ rest := by
  cases pat with
  | nil => exact absurd rfl hp
  | cons c cs =>
    have e : replaceFirstAux (c :: cs) rep ((c :: cs) ++ rest) =
        if (c :: cs).isPrefixOf ((c :: cs) ++ rest) then
          rep ++ ((c :: cs) ++ rest).drop (c :: cs).length
        else c :: replaceFirstAux (c :: cs) rep (cs ++ rest) := rfl
    rw [e, if_pos (isPrefixOf_append_self (c :: cs) rest), drop_len_append]

theorem jsReplaceFirst_bearer (tok : String) :
    jsReplaceFirst ("Bearer " ++ tok) "Bearer " "" = tok := by
  unfold jsReplaceFirst
  rw [stringData_append]
  rw [replaceFirstAux_head_match _ _ _ (by decide)]
  rw [show ("" : String).data = [] from rfl, List.nil_append]

/-- The signed token "k" itself is never a verifiable token, while a real
signed token under secret "k" is. -/
def signedTokA : String :=
  String.mk (jwtSignRaw "k".data [("website_id".data, "w".data)] 0)

/-- C7 counterexample: with shared secret "k" configured, the bearer value
"k" (the raw secret, not a signed token — it does not verify) is
authorized, and a genuine signed token under "k" (which does verify) is
rejected: authorization is plain string comparison, not signature
verification, so the claimed equivalence fails in both directions. -/
theorem bearerJwt_c7_counterexample :
    requireAuth "k" "" none (some "Bearer k") = AuthOutcome.authorized ∧
    jwtVerifyRaw "k".data "k".data 0 = none ∧
    requireAuth "k" "" none (some ("Bearer " ++ signedTokA)) = AuthOutcome.invalidKey ∧
    (jwtVerifyRaw "k".data signedTokA.data 10).isSome = true := by
  refine ⟨by decide, by decide, by decide, by decide⟩

/-- C7 amended: with a shared secret configured, a request presenting a
bearer token is authorized if and only if the presented token exactly
equals the configured secret string; no token-signature verification is
involved in the live `requireAuth`. -/
theorem bearerJwt_c7_amended (trafficDoctorApiKey workerApiKey tok : String)
    (h : trafficDoctorApiKey ≠ "") :
    (requireAuth trafficDoctorApiKey workerApiKey none (some ("Bearer " ++ tok)) =
        .authorized ↔ tok = trafficDoctorApiKey) := by
  unfold requireAuth
  rw [show jsOrStr trafficDoctorApiKey workerApiKey = trafficDoctorApiKey from if_neg h]
  rw [if_neg h]
  dsimp only
  rw [jsReplaceFirst_bearer]
  by_cases ht : tok = ""
  · subst ht
    rw [if_pos rfl]
    constructor
    · intro hcontr; cases hcontr
    · intro heq; exact absurd heq.symm h
  · rw [if_neg ht]
    dsimp only
    by_cases heq : tok = trafficDoctorApiKey
    · rw [if_pos heq]
      exact ⟨fun _ => heq, fun _ => rfl⟩
    · rw [if_neg heq]
      constructor
      · intro hcontr; cases hcontr
      · intro hcontr; exact absurd hcontr heq

theorem bearerJwt_c7_witness :
    requireAuth "k" "" none (some ("Bearer " ++ "k")) = .authorized ↔ "k" = "k" :=
  bearerJwt_c7_amended "k" "" "k" (by decide)

/-! ### General verification-of-signed-token lemma (validity window) -/

theorem jwtVerifyRaw_signRaw_eq (secret : List Char) (fs : List (List Char × List Char))
    (nowSec checkSec : Nat) :
    jwtVerifyRaw secret (jwtSignRaw secret fs nowSec) checkSec =
      (if checkSec < nowSec + 300 then some (fs, nowSec, nowSec + 300) else none) := by
  have hdot : isDigitC '.' = false := by decide
  simp only [jwtSignRaw, jwtVerifyRaw, signingInput, List.append_assoc, List.cons_append]
  rw [parseFields_encPairs]
  simp only
  rw [parseNat_toDigits nowSec _ (Or.inr ⟨'.', _, rfl, hdot⟩)]
  simp only
  rw [parseNat_toDigits (nowSec + 300) _ (Or.inr ⟨'.', _, rfl, hdot⟩)]
  simp only [signingInput, List.append_assoc, List.cons_append]
  by_cases h : checkSec < nowSec + 300
  · simp [h]
  · simp [h]

theorem stringData_mk (l : List Char) : (String.mk l).data = l := rfl

/-- Callback input whose correlation state is a tampered (unverifiable)
string. -/
def cbInputTampered : CallbackInput :=
  { errorParam := none, code := some "c", state := some "garbage",
    tokenExchange := .ok tokensFullA, userinfo := .ok (some "u@x"), nowSec := 0 }

/-- A state signed under "s" that carries no `website_id` claim. -/
def stateTokB : String :=
  String.mk (jwtSignRaw "s".data [("foo".data, "bar".data)] 100)

/-- Callback input whose state verifies but carries no website id. -/
def cbInputNoWid : CallbackInput :=
  { errorParam := none, code := some "c", state := some stateTokB,
    tokenExchange := .ok tokensFullA, userinfo := .ok (some "u@x"), nowSec := 150 }

/-- C8 counterexample: a tampered correlation state makes the callback
fail with the catch-all `CALLBACK_ERROR` (500), not the `INVALID_STATE`
error the claim requires; nothing is persisted either way. -/
theorem stateToken_c8_counterexample :
    verifyJWT "s" "garbage" 0 = Except.error JwtFail.invalidToken ∧
    authCallbackHandler "s" cbInputTampered storeE = (CbResponse.callbackError, storeE) ∧
    CbResponse.callbackError ≠ CbResponse.invalidState :=
  ⟨rfl, rfl, by decide⟩

/-- C8 amended: a tampered or expired correlation state aborts the
callback with `CALLBACK_ERROR` and nothing persisted; a state that
verifies but carries no `website_id` yields `INVALID_STATE` and nothing
persisted; and the correlation token issued by `/auth/start` is a signed
token carrying `website_id` that verifies for strictly less than 300
seconds after issuance and is rejected from 300 seconds on. -/
theorem stateToken_c8_amended (jwtSecret : String) (inp : CallbackInput) (store : Store)
    (st : String) (herr : inp.errorParam = none) (hst : inp.state = some st)
    (hstne : st ≠ "") (hcode : ∃ c, inp.code = some c ∧ c ≠ "") :
    ((∃ e, verifyJWT jwtSecret st inp.nowSec = .error e) →
      authCallbackHandler jwtSecret inp store = (.callbackError, store)) ∧
    (∀ decoded, verifyJWT jwtSecret st inp.nowSec = .ok decoded →
      jsTruthyStr (decoded.lookup "website_id") = false →
      authCallbackHandler jwtSecret inp store = (.invalidState, store)) ∧
    (∀ secret wid nowSec, secret ≠ "" → wid ≠ "" →
      ∃ stateTok, authStartHandler secret (some wid) nowSec = .redirectToConsent stateTok ∧
        (∀ checkSec, checkSec < nowSec + 300 →
          ∃ claims, verifyJWT secret stateTok checkSec = .ok claims ∧
            ("website_id", wid) ∈ claims) ∧
        (∀ checkSec, nowSec + 300 ≤ checkSec →
          verifyJWT secret stateTok checkSec = .error .invalidToken)) := by
  obtain ⟨ep, code, state, tex, ui, now⟩ := inp
  obtain ⟨c, hc, hcne⟩ := hcode
  simp only at herr hst hc ⊢
  subst herr hst hc
  have hgc : jsTruthyStr (some c) = true := by
    simp only [jsTruthyStr, decide_eq_true_eq]; exact hcne
  have hgs : jsTruthyStr (some st) = true := by
    simp only [jsTruthyStr, decide_eq_true_eq]; exact hstne
  refine ⟨?_, ?_, ?_⟩
  · rintro ⟨e, hverr⟩
    simp [authCallbackHandler, hgc, hgs, hverr]
  · intro decoded hver hwid
    simp [authCallbackHandler, hgc, hgs, hver, hwid]
  · intro secret wid nowSec hsec hwid2
    refine ⟨String.mk (jwtSignRaw secret.data [("website_id".data, wid.data)] nowSec),
      ?_, ?_, ?_⟩
    · simp only [authStartHandler, if_neg hwid2, signJWT, if_neg hsec]
      rfl
    · intro checkSec hlt
      refine ⟨[("website_id", wid), ("iat", String.mk (toDigits nowSec)),
        ("exp", String.mk (toDigits (nowSec + 300)))], ?_, ?_⟩
      · simp only [verifyJWT, if_neg hsec]
        rw [stringData_mk, jwtVerifyRaw_signRaw_eq, if_pos hlt]
        rfl
      · exact List.mem_cons_self _ _
    · intro checkSec hge
      simp only [verifyJWT, if_neg hsec]
      rw [stringData_mk, jwtVerifyRaw_signRaw_eq, if_neg (by omega)]

theorem stateToken_c8_witness :
    authCallbackHandler "s" cbInputTampered storeE = (.callbackError, storeE) ∧
    authCallbackHandler "s" cbInputNoWid storeE = (.invalidState, storeE) ∧
    (∃ stateTok, authStartHandler "s" (some "w1") 0 = .redirectToConsent stateTok ∧
      (∀ checkSec, checkSec < 0 + 300 →
        ∃ claims, verifyJWT "s" stateTok checkSec = .ok claims ∧
          ("website_id", "w1") ∈ claims) ∧
      (∀ checkSec, 0 + 300 ≤ checkSec →
        verifyJWT "s" stateTok checkSec = .error .invalidToken)) :=
  ⟨(stateToken_c8_amended "s" cbInputTampered storeE "garbage" rfl rfl (by decide)
      ⟨"c", rfl, by decide⟩).1 ⟨JwtFail.invalidToken, rfl⟩,
   (stateToken_c8_amended "s" cbInputNoWid storeE stateTokB rfl rfl (by decide)
      ⟨"c", rfl, by decide⟩).2.1
      [("foo", "bar"), ("iat", "100"), ("exp", "400")] rfl (by decide),
   (stateToken_c8_amended "s" cbInputTampered storeE "garbage" rfl rfl (by decide)
      ⟨"c", rfl, by decide⟩).2.2
      "s" "w1" 0 (by decide) (by decide)⟩

/-- C9: the state-token functions round trip — with a non-empty secret,
a token signed now verifies at any instant strictly inside the 300-second
window and the decoded claims contain every field of the original
payload; with an empty configured secret, both `signJWT` and `verifyJWT`
fail with the not-configured error. -/
theorem jwtRoundtrip_c9 (secret : String) (payload : List (String × String))
    (nowSec checkSec : Nat) :
    (secret ≠ "" → nowSec ≤ checkSec → checkSec < nowSec + 300 →
      ∃ tok claims, signJWT secret payload nowSec = .ok tok ∧
        verifyJWT secret tok checkSec = .ok claims ∧
        ∀ kv ∈ payload, kv ∈ claims) ∧
    (signJWT "" payload nowSec = .error .notConfigured ∧
     ∀ token, verifyJWT "" token checkSec = .error .notConfigured) := by
  refine ⟨?_, ?_, ?_⟩
  · intro hsec _hle hlt
    refine ⟨String.mk (jwtSignRaw secret.data
        (payload.map (fun kv => (kv.1.data, kv.2.data))) nowSec),
      (payload.map (fun kv => (kv.1.data, kv.2.data))).map
          (fun kv => (String.mk kv.1, String.mk kv.2)) ++
        [("iat", String.mk (toDigits nowSec)),
         ("exp", String.mk (toDigits (nowSec + 300)))], ?_, ?_, ?_⟩
    · simp only [signJWT, if_neg hsec]
    · simp only [verifyJWT, if_neg hsec]
      rw [stringData_mk, jwtVerifyRaw_signRaw_eq, if_pos hlt]
    · intro kv hkv
      refine List.mem_append_left _ ?_
      rw [List.map_map]
      exact List.mem_map.mpr ⟨kv, hkv, rfl⟩
  · simp [signJWT]
  · intro token
    simp [verifyJWT]

theorem jwtRoundtrip_c9_witness :
    (∃ tok claims, signJWT "s" [("website_id", "w1")] 0 = .ok tok ∧
      verifyJWT "s" tok 100 = .ok claims ∧
      ∀ kv ∈ [("website_id", "w1")], kv ∈ claims) ∧
    (signJWT "" [("website_id", "w1")] 0 = .error .notConfigured ∧
     ∀ token, verifyJWT "" token 100 = .error .notConfigured) :=
  ⟨(jwtRoundtrip_c9 "s" [("website_id", "w1")] 0 100).1 (by decide) (by omega) (by omega),
   (jwtRoundtrip_c9 "s" [("website_id", "w1")] 0 100).2⟩

end GSC
